import Mathlib

/-!
Shallow embedding of the CredX amortization engine
(src/app/lib/calculator.ts) and verification of the frozen claims.

The source computes with the arbitrary-precision decimal library
decimal.js; monetary quantities, rates and fractional tenures are
modelled here as exact real numbers, integer month counts as naturals
or integers, and Decimal.ln as Real.log.  Math.ceil becomes Int.ceil
and Math.max 0 becomes max 0.
-/

namespace CredX

noncomputable section

/-- calculateMonthlyRate: (annualRate / 100) / 12. -/
def calculateMonthlyRate (annualRate : ℝ) : ℝ :=
  annualRate / 100 / 12

/-- calculateEMI: P * i * (1+i)^N / ((1+i)^N - 1), i the monthly rate,
N the tenure in months. -/
def calculateEMI (principal annualRate : ℝ) (tenureMonths : ℕ) : ℝ :=
  let i := calculateMonthlyRate annualRate
  let onePlusIToN := (1 + i) ^ tenureMonths
  principal * i * onePlusIToN / (onePlusIToN - 1)

/-- calculateOutstandingPrincipal: P * ((1+i)^N - (1+i)^k) / ((1+i)^N - 1). -/
def calculateOutstandingPrincipal (originalPrincipal annualRate : ℝ)
    (originalTenure monthsPaid : ℕ) : ℝ :=
  let i := calculateMonthlyRate annualRate
  let onePlusIToN := (1 + i) ^ originalTenure
  let onePlusIToK := (1 + i) ^ monthsPaid
  originalPrincipal * (onePlusIToN - onePlusIToK) / (onePlusIToN - 1)

/-- calculateNewTenure: the tenure solver.  Returns 0 when the
post-prepayment balance is nonpositive, 0 when the payment does not
exceed one month of interest on it, and otherwise
ln(E / (E - B*i)) / ln(1+i). -/
def calculateNewTenure (outstandingPrincipal annualRate emi prepaymentAmount : ℝ) : ℝ :=
  let P_after := outstandingPrincipal - prepaymentAmount
  let i := calculateMonthlyRate annualRate
  if P_after ≤ 0 then 0
  else if emi - P_after * i ≤ 0 then 0
  else Real.log (emi / (emi - P_after * i)) / Real.log (1 + i)

/-- calculateInterestSaved: E*rem - (E*newTenure + prepayment). -/
def calculateInterestSaved (emi originalRemainingTenure newTenure prepaymentAmount : ℝ) : ℝ :=
  emi * originalRemainingTenure - (emi * newTenure + prepaymentAmount)

/-- Result record of calculatePrepaymentScenario (Scenario 1A). -/
structure PrepayScenarioResult where
  emi : ℝ
  outstandingPrincipal : ℝ
  remainingTenure : ℤ
  newTenureAfterPrepay : ℤ
  interestSaved : ℝ
  tenureReduced : ℤ
  totalCostWithoutPrepay : ℝ
  totalCostWithPrepay : ℝ

/-- calculatePrepaymentScenario (Scenario 1A: prepay, keep EMI, reduce
tenure).  newTenureAfterPrepay is Math.max 0 (Math.ceil solver). -/
def calculatePrepaymentScenario (originalPrincipal annualRate : ℝ)
    (originalTenure monthsPaid : ℕ) (prepaymentAmount : ℝ) : PrepayScenarioResult :=
  let emi := calculateEMI originalPrincipal annualRate originalTenure
  let outstanding := calculateOutstandingPrincipal originalPrincipal annualRate
    originalTenure monthsPaid
  let remainingTenure : ℤ := (originalTenure : ℤ) - (monthsPaid : ℤ)
  let newTenureAfterPrepay : ℤ :=
    max 0 ⌈calculateNewTenure outstanding annualRate emi prepaymentAmount⌉
  { emi := emi
    outstandingPrincipal := outstanding
    remainingTenure := remainingTenure
    newTenureAfterPrepay := newTenureAfterPrepay
    interestSaved := calculateInterestSaved emi (remainingTenure : ℝ)
      (newTenureAfterPrepay : ℝ) prepaymentAmount
    tenureReduced := remainingTenure - newTenureAfterPrepay
    totalCostWithoutPrepay := emi * (remainingTenure : ℝ)
    totalCostWithPrepay := emi * (newTenureAfterPrepay : ℝ) + prepaymentAmount }

/-- Present value of an annuity of 1 per month for N months at monthly
rate i: the sum of the discount factors (1+i)^-(k+1).  Auxiliary for the
EMI monotonicity proofs. -/
def geomSum (i : ℝ) (N : ℕ) : ℝ :=
  ∑ k ∈ Finset.range N, ((1 + i) ^ (k + 1))⁻¹

/-- Result record of calculatePrepaymentScenario1B (Scenario 1B). -/
structure Scenario1BResult where
  emi : ℝ
  newEmi : ℝ
  emiReduction : ℝ
  outstandingPrincipal : ℝ
  remainingTenure : ℤ
  interestSaved : ℝ
  totalCostWithoutPrepay : ℝ
  totalCostWithPrepay : ℝ
  monthlyBenefit : ℝ

/-- calculatePrepaymentScenario1B (Scenario 1B: prepay, keep tenure,
reduce EMI).  Returns the zero-new-EMI sentinel when the post-prepayment
balance is nonpositive or the EMI-formula denominator is nonpositive. -/
def calculatePrepaymentScenario1B (originalPrincipal annualRate : ℝ)
    (originalTenure monthsPaid : ℕ) (prepaymentAmount : ℝ) : Scenario1BResult :=
  let emi := calculateEMI originalPrincipal annualRate originalTenure
  let outstanding := calculateOutstandingPrincipal originalPrincipal annualRate
    originalTenure monthsPaid
  let remainingTenure : ℤ := (originalTenure : ℤ) - (monthsPaid : ℤ)
  let P_after := outstanding - prepaymentAmount
  if P_after ≤ 0 then
    { emi := emi, newEmi := 0, emiReduction := emi
      outstandingPrincipal := outstanding, remainingTenure := remainingTenure
      interestSaved := 0
      totalCostWithoutPrepay := emi * (remainingTenure : ℝ)
      totalCostWithPrepay := prepaymentAmount, monthlyBenefit := emi }
  else
    let i := calculateMonthlyRate annualRate
    let onePlusIToN := (1 + i) ^ remainingTenure
    let denominator := onePlusIToN - 1
    if denominator ≤ 0 then
      { emi := emi, newEmi := 0, emiReduction := emi
        outstandingPrincipal := outstanding, remainingTenure := remainingTenure
        interestSaved := 0
        totalCostWithoutPrepay := emi * (remainingTenure : ℝ)
        totalCostWithPrepay := prepaymentAmount, monthlyBenefit := emi }
    else
      let newEmi := P_after * i * onePlusIToN / denominator
      { emi := emi, newEmi := newEmi, emiReduction := emi - newEmi
        outstandingPrincipal := outstanding, remainingTenure := remainingTenure
        interestSaved := emi * (remainingTenure : ℝ) -
          (newEmi * (remainingTenure : ℝ) + prepaymentAmount)
        totalCostWithoutPrepay := emi * (remainingTenure : ℝ)
        totalCostWithPrepay := newEmi * (remainingTenure : ℝ) + prepaymentAmount
        monthlyBenefit := emi - newEmi }

/-- Result record of calculateScenario2. -/
structure Scenario2Result where
  emi : ℝ
  effectiveMonthlyPayment : ℝ
  outstandingPrincipal : ℝ
  remainingTenure : ℤ
  newTenure : ℤ
  tenureReduced : ℤ
  interestSaved : ℝ
  totalExtraPaid : ℝ
  totalCostWithoutExtra : ℝ
  totalCostWithExtra : ℝ

/-- calculateScenario2 (recurring extra monthly payment).  Short-circuit
when extra ≤ 0; sentinel shape when the effective payment does not cover
one month of interest on the outstanding balance. -/
def calculateScenario2 (originalPrincipal annualRate : ℝ)
    (originalTenure monthsPaid : ℕ) (monthlyExtraPayment : ℝ) : Scenario2Result :=
  let emi := calculateEMI originalPrincipal annualRate originalTenure
  let outstanding := calculateOutstandingPrincipal originalPrincipal annualRate
    originalTenure monthsPaid
  let remainingTenure : ℤ := (originalTenure : ℤ) - (monthsPaid : ℤ)
  let effectiveMonthlyPayment := emi + monthlyExtraPayment
  let i := calculateMonthlyRate annualRate
  if monthlyExtraPayment ≤ 0 then
    { emi := emi, effectiveMonthlyPayment := emi
      outstandingPrincipal := outstanding, remainingTenure := remainingTenure
      newTenure := remainingTenure, tenureReduced := 0, interestSaved := 0
      totalExtraPaid := 0
      totalCostWithoutExtra := emi * (remainingTenure : ℝ)
      totalCostWithExtra := emi * (remainingTenure : ℝ) }
  else
    let denominatorInner := effectiveMonthlyPayment - outstanding * i
    if denominatorInner ≤ 0 then
      { emi := emi, effectiveMonthlyPayment := effectiveMonthlyPayment
        outstandingPrincipal := outstanding, remainingTenure := remainingTenure
        newTenure := 0, tenureReduced := remainingTenure, interestSaved := 0
        totalExtraPaid := 0
        totalCostWithoutExtra := emi * (remainingTenure : ℝ)
        totalCostWithExtra := 0 }
    else
      let newTenure : ℤ :=
        max 0 ⌈Real.log (effectiveMonthlyPayment / denominatorInner) / Real.log (1 + i)⌉
      { emi := emi, effectiveMonthlyPayment := effectiveMonthlyPayment
        outstandingPrincipal := outstanding, remainingTenure := remainingTenure
        newTenure := newTenure, tenureReduced := remainingTenure - newTenure
        interestSaved := emi * (remainingTenure : ℝ) -
          effectiveMonthlyPayment * (newTenure : ℝ)
        totalExtraPaid := monthlyExtraPayment * (newTenure : ℝ)
        totalCostWithoutExtra := emi * (remainingTenure : ℝ)
        totalCostWithExtra := effectiveMonthlyPayment * (newTenure : ℝ) }

/-- The four candidate labels of the refinance comparison. -/
inductive BestOpt where
  | stay
  | A
  | B
  | C
deriving DecidableEq

/-- Input record of calculateScenario3. -/
structure S3Input where
  originalPrincipal : ℝ
  currentRate : ℝ
  originalTenure : ℕ
  monthsPaid : ℕ
  prepaymentAmount : ℝ
  newRate : ℝ
  refinanceCost : ℝ
  newTenure : ℕ

/-- Per-option block of the Scenario 3 result. -/
structure S3Option where
  totalCost : ℝ
  totalInterest : ℝ
  monthlyPayment : ℝ
  tenure : ℤ
  hasBenefit : Bool
  status : Option String

/-- Scenario 3 original EMI. -/
def s3_emi (a : S3Input) : ℝ :=
  calculateEMI a.originalPrincipal a.currentRate a.originalTenure

/-- Scenario 3 outstanding principal at monthsPaid. -/
def s3_outstanding (a : S3Input) : ℝ :=
  calculateOutstandingPrincipal a.originalPrincipal a.currentRate
    a.originalTenure a.monthsPaid

/-- Scenario 3 remaining tenure. -/
def s3_remainingTenure (a : S3Input) : ℤ :=
  (a.originalTenure : ℤ) - (a.monthsPaid : ℤ)

/-- Scenario 3 amount already paid: emi * monthsPaid. -/
def s3_alreadyPaid (a : S3Input) : ℝ :=
  s3_emi a * (a.monthsPaid : ℝ)

/-- Stay total cost: alreadyPaid + emi * remainingTenure. -/
def s3_stayTotalCost (a : S3Input) : ℝ :=
  s3_alreadyPaid a + s3_emi a * (s3_remainingTenure a : ℝ)

/-- Stay total interest. -/
def s3_stayTotalInterest (a : S3Input) : ℝ :=
  s3_stayTotalCost a - a.originalPrincipal

/-- Option A guard: 0 < prepayment < outstanding. -/
abbrev s3_optionA_applies (a : S3Input) : Prop :=
  0 < a.prepaymentAmount ∧ a.prepaymentAmount < s3_outstanding a

/-- Option A tenure-solver denominator: emi - (outstanding - prepayment) * i. -/
def s3_optionA_denomInner (a : S3Input) : ℝ :=
  s3_emi a - (s3_outstanding a - a.prepaymentAmount) * calculateMonthlyRate a.currentRate

/-- Option A new tenure (prepay only, at the current rate). -/
def s3_optionA_tenure (a : S3Input) : ℤ :=
  if s3_optionA_applies a then
    if 0 < s3_optionA_denomInner a then
      max 0 ⌈Real.log (s3_emi a / s3_optionA_denomInner a) /
        Real.log (1 + calculateMonthlyRate a.currentRate)⌉
    else 0
  else s3_remainingTenure a

/-- Option A total cost. -/
def s3_optionA_totalCost (a : S3Input) : ℝ :=
  if s3_optionA_applies a then
    if 0 < s3_optionA_denomInner a then
      s3_alreadyPaid a + s3_emi a * (s3_optionA_tenure a : ℝ) + a.prepaymentAmount
    else s3_alreadyPaid a + a.prepaymentAmount
  else s3_stayTotalCost a

/-- Option A benefit flag. -/
def s3_optionA_hasBenefit (a : S3Input) : Bool :=
  if s3_optionA_applies a then
    if 0 < s3_optionA_denomInner a then
      decide (s3_optionA_totalCost a < s3_stayTotalCost a)
    else false
  else false

/-- Option A status string. -/
def s3_optionA_status (a : S3Input) : Option String :=
  if s3_optionA_applies a then
    if 0 < s3_optionA_denomInner a then none else some "Invalid scenario"
  else if a.prepaymentAmount = 0 then some "No benefit (same as Stay)"
  else some "Invalid prepayment amount"

/-- Option B refinanced EMI: (outstanding + refinanceCost) re-amortized
at the new rate over the new tenure. -/
def s3_optionB_emi (a : S3Input) : ℝ :=
  let i_new := calculateMonthlyRate a.newRate
  let q := (1 + i_new) ^ a.newTenure
  (s3_outstanding a + a.refinanceCost) * i_new * q / (q - 1)

/-- Option B total cost. -/
def s3_optionB_totalCost (a : S3Input) : ℝ :=
  s3_alreadyPaid a + s3_optionB_emi a * (a.newTenure : ℝ)

/-- Option B benefit flag: newRate < currentRate and cost below Stay. -/
def s3_optionB_hasBenefit (a : S3Input) : Bool :=
  decide (a.newRate < a.currentRate) && decide (s3_optionB_totalCost a < s3_stayTotalCost a)

/-- Option B status string. -/
def s3_optionB_status (a : S3Input) : Option String :=
  if a.currentRate ≤ a.newRate then some "No benefit (rate not lower)" else none

/-- Option C capitalized refinance principal: (outstanding - prepayment) + refinanceCost. -/
def s3_P_refi_C (a : S3Input) : ℝ :=
  (s3_outstanding a - a.prepaymentAmount) + a.refinanceCost

/-- Option C guard for the computed branch. -/
abbrev s3_optionC_applies (a : S3Input) : Prop :=
  0 < s3_P_refi_C a ∧ a.prepaymentAmount < s3_outstanding a

/-- Option C refinanced EMI. -/
def s3_optionC_emi (a : S3Input) : ℝ :=
  let i_new := calculateMonthlyRate a.newRate
  let q := (1 + i_new) ^ a.newTenure
  s3_P_refi_C a * i_new * q / (q - 1)

/-- Option C total cost. -/
def s3_optionC_totalCost (a : S3Input) : ℝ :=
  if a.prepaymentAmount = 0 then s3_optionB_totalCost a
  else if s3_optionC_applies a then
    s3_alreadyPaid a + s3_optionC_emi a * (a.newTenure : ℝ) + a.prepaymentAmount
  else s3_stayTotalCost a

/-- Option C monthly payment. -/
def s3_optionC_monthlyPayment (a : S3Input) : ℝ :=
  if a.prepaymentAmount = 0 then s3_optionB_emi a
  else if s3_optionC_applies a then s3_optionC_emi a
  else s3_emi a

/-- Option C tenure. -/
def s3_optionC_tenure (a : S3Input) : ℤ :=
  if a.prepaymentAmount = 0 then (a.newTenure : ℤ)
  else if s3_optionC_applies a then (a.newTenure : ℤ)
  else s3_remainingTenure a

/-- Option C benefit flag: only in the computed branch, only when
newRate < currentRate, and compared against Option A (not Stay). -/
def s3_optionC_hasBenefit (a : S3Input) : Bool :=
  if a.prepaymentAmount = 0 then false
  else if s3_optionC_applies a then
    if a.currentRate ≤ a.newRate then false
    else decide (s3_optionC_totalCost a < s3_optionA_totalCost a)
  else false

/-- Option C status string. -/
def s3_optionC_status (a : S3Input) : Option String :=
  if a.prepaymentAmount = 0 then some "Same as Option B (no prepayment)"
  else if s3_optionC_applies a then
    if a.currentRate ≤ a.newRate then some "No benefit (rate not lower)" else none
  else some "Invalid scenario"

/-- The cost table of the Rule 5 arbitration branch. -/
def s3_cost (a : S3Input) : BestOpt → ℝ
  | BestOpt.stay => s3_stayTotalCost a
  | BestOpt.A => s3_optionA_totalCost a
  | BestOpt.B => s3_optionB_totalCost a
  | BestOpt.C => s3_optionC_totalCost a

/-- reduce of the source: fold keeping the accumulator only when its
cost is strictly lower, so the later element wins ties. -/
def reduceSel (cost : BestOpt → ℝ) : BestOpt → List BestOpt → BestOpt
  | acc, [] => acc
  | acc, b :: rest => reduceSel cost (if cost acc < cost b then acc else b) rest

/-- Candidate keys after stay in the Rule 5 branch, in insertion order:
A always, B when newRate < currentRate, C when prepayment > 0. -/
def s3_rule5_list (a : S3Input) : List BestOpt :=
  [BestOpt.A] ++ (if a.newRate < a.currentRate then [BestOpt.B] else []) ++
    (if 0 < a.prepaymentAmount then [BestOpt.C] else [])

/-- Rule 5 winner: reduce over stay :: candidates. -/
def s3_rule5_best (a : S3Input) : BestOpt :=
  reduceSel (s3_cost a) BestOpt.stay (s3_rule5_list a)

/-- The best-option arbitration of calculateScenario3, rule order as in
the source. -/
def s3_bestOption (a : S3Input) : BestOpt :=
  if a.prepaymentAmount = 0 then
    if a.newRate < a.currentRate ∧ s3_optionB_totalCost a < s3_stayTotalCost a then
      BestOpt.B
    else BestOpt.stay
  else if a.currentRate ≤ a.newRate ∧ 0 < a.prepaymentAmount then
    if s3_optionA_hasBenefit a then BestOpt.A else BestOpt.stay
  else if a.currentRate ≤ a.newRate ∧ a.prepaymentAmount = 0 then BestOpt.stay
  else s3_rule5_best a

/-- maxSavings, branch by branch as in the source. -/
def s3_maxSavings (a : S3Input) : ℝ :=
  if a.prepaymentAmount = 0 then
    if a.newRate < a.currentRate ∧ s3_optionB_totalCost a < s3_stayTotalCost a then
      s3_stayTotalCost a - s3_optionB_totalCost a
    else 0
  else if a.currentRate ≤ a.newRate ∧ 0 < a.prepaymentAmount then
    if s3_optionA_hasBenefit a then s3_stayTotalCost a - s3_optionA_totalCost a
    else 0
  else if a.currentRate ≤ a.newRate ∧ a.prepaymentAmount = 0 then 0
  else s3_stayTotalCost a - s3_cost a (s3_rule5_best a)

/-- Result record of calculateScenario3. -/
structure Scenario3Result where
  emi : ℝ
  outstandingPrincipal : ℝ
  remainingTenure : ℤ
  stay : S3Option
  optionA : S3Option
  optionB : S3Option
  optionC : S3Option
  bestOption : BestOpt
  maxSavings : ℝ

/-- calculateScenario3: the four-way refinance comparison. -/
def calculateScenario3 (a : S3Input) : Scenario3Result :=
  { emi := s3_emi a
    outstandingPrincipal := s3_outstanding a
    remainingTenure := s3_remainingTenure a
    stay :=
      { totalCost := s3_stayTotalCost a
        totalInterest := s3_stayTotalInterest a
        monthlyPayment := s3_emi a
        tenure := s3_remainingTenure a
        hasBenefit := true
        status := none }
    optionA :=
      { totalCost := s3_optionA_totalCost a
        totalInterest := s3_optionA_totalCost a - a.originalPrincipal
        monthlyPayment := s3_emi a
        tenure := s3_optionA_tenure a
        hasBenefit := s3_optionA_hasBenefit a
        status := s3_optionA_status a }
    optionB :=
      { totalCost := s3_optionB_totalCost a
        totalInterest := s3_optionB_totalCost a - a.originalPrincipal
        monthlyPayment := s3_optionB_emi a
        tenure := (a.newTenure : ℤ)
        hasBenefit := s3_optionB_hasBenefit a
        status := s3_optionB_status a }
    optionC :=
      { totalCost := s3_optionC_totalCost a
        totalInterest := s3_optionC_totalCost a - a.originalPrincipal
        monthlyPayment := s3_optionC_monthlyPayment a
        tenure := s3_optionC_tenure a
        hasBenefit := s3_optionC_hasBenefit a
        status := s3_optionC_status a }
    bestOption := s3_bestOption a
    maxSavings := s3_maxSavings a }

/-- Modelled from the claim wording, for comparison with the source
selection: the candidate with the lowest cost among stay, A, B, C, ties
broken in favor of the LAST-encountered in that order. -/
def specLastArgmin (cs ca cb cc : ℝ) : BestOpt :=
  if cc ≤ cs ∧ cc ≤ ca ∧ cc ≤ cb then BestOpt.C
  else if cb ≤ cs ∧ cb ≤ ca then BestOpt.B
  else if ca ≤ cs then BestOpt.A
  else BestOpt.stay

end

lemma calculateMonthlyRate_pos {r : ℝ} (hr : 0 < r) : 0 < calculateMonthlyRate r := by
  unfold calculateMonthlyRate
  positivity

lemma geomSum_zero (i : ℝ) : geomSum i 0 = 0 := by
  simp [geomSum]

lemma geomSum_succ (i : ℝ) (N : ℕ) :
    geomSum i (N + 1) = geomSum i N + ((1 + i) ^ (N + 1))⁻¹ := by
  simp [geomSum, Finset.sum_range_succ]

lemma geomSum_pos {i : ℝ} (hi : 0 < i) {N : ℕ} (hN : 1 ≤ N) :
    0 < geomSum i N := by
  have h1 : (0:ℝ) < 1 + i := by linarith
  apply Finset.sum_pos
  · intro k _
    exact inv_pos.mpr (pow_pos h1 _)
  · exact Finset.nonempty_range_iff.mpr (by omega)

lemma geomSum_closed {i : ℝ} (hi : 0 < i) (N : ℕ) :
    geomSum i N = ((1 + i) ^ N - 1) / (i * (1 + i) ^ N) := by
  induction N with
  | zero => simp [geomSum_zero]
  | succ n ih =>
    have h1 : (0:ℝ) < 1 + i := by linarith
    have hne : (1 + i) ≠ 0 := ne_of_gt h1
    have hpow : (1 + i) ^ n ≠ 0 := pow_ne_zero _ hne
    have hpow1 : (1 + i) ^ (n + 1) ≠ 0 := pow_ne_zero _ hne
    rw [geomSum_succ, ih]
    field_simp
    ring_nf

lemma calculateEMI_eq_div {P r : ℝ} {N : ℕ}
    (hr : 0 < calculateMonthlyRate r) (hN : 1 ≤ N) :
    calculateEMI P r N = P / geomSum (calculateMonthlyRate r) N := by
  set i := calculateMonthlyRate r with hidef
  have h1 : (0:ℝ) < 1 + i := by linarith
  have hq : 1 < (1 + i) ^ N := one_lt_pow₀ (by linarith) (by omega)
  have hqne : (1 + i) ^ N ≠ 0 := by positivity
  have hq1 : (1 + i) ^ N - 1 ≠ 0 := by linarith
  rw [calculateEMI, geomSum_closed hr]
  field_simp
  ring

lemma geomSum_lt_of_rate_lt {i₁ i₂ : ℝ} (h1 : 0 < i₁) (h12 : i₁ < i₂)
    {N : ℕ} (hN : 1 ≤ N) : geomSum i₂ N < geomSum i₁ N := by
  apply Finset.sum_lt_sum_of_nonempty (Finset.nonempty_range_iff.mpr (by omega))
  intro k _
  have hb1 : (0:ℝ) < (1 + i₁) ^ (k + 1) := by positivity
  have hlt : (1 + i₁) ^ (k + 1) < (1 + i₂) ^ (k + 1) :=
    pow_lt_pow_left₀ (by linarith) (by linarith) (Nat.succ_ne_zero k)
  exact inv_strictAnti₀ hb1 hlt

lemma geomSum_lt_of_tenure_lt {i : ℝ} (hi : 0 < i) {N₁ N₂ : ℕ} (h12 : N₁ < N₂) :
    geomSum i N₁ < geomSum i N₂ := by
  apply Finset.sum_lt_sum_of_subset (Finset.range_subset.mpr (le_of_lt h12))
    (Finset.mem_range.mpr h12) Finset.not_mem_range_self
  · positivity
  · intro j _ _
    positivity

/-- C5: EMI monotonicity and positivity.  For fixed principal and
tenure the EMI strictly increases in the rate; for fixed principal and
rate it strictly decreases in the tenure; and it is positive (the
function is deterministic, so the value is unique). -/
theorem emi_monotone_positive :
    (∀ (P r₁ r₂ : ℝ) (N : ℕ), 0 < P → 0 < r₁ → r₁ < r₂ → 1 ≤ N →
      calculateEMI P r₁ N < calculateEMI P r₂ N) ∧
    (∀ (P r : ℝ) (N₁ N₂ : ℕ), 0 < P → 0 < r → 1 ≤ N₁ → N₁ < N₂ →
      calculateEMI P r N₂ < calculateEMI P r N₁) ∧
    (∀ (P r : ℝ) (N : ℕ), 0 < P → 0 < r → 1 ≤ N → 0 < calculateEMI P r N) := by
  refine ⟨?_, ?_, ?_⟩
  · intro P r₁ r₂ N hP h1 h12 hN
    have hi1 : 0 < calculateMonthlyRate r₁ := calculateMonthlyRate_pos h1
    have hi2 : 0 < calculateMonthlyRate r₂ := calculateMonthlyRate_pos (by linarith)
    have hii : calculateMonthlyRate r₁ < calculateMonthlyRate r₂ := by
      unfold calculateMonthlyRate
      linarith
    rw [calculateEMI_eq_div hi1 hN, calculateEMI_eq_div hi2 hN]
    exact div_lt_div_of_pos_left hP (geomSum_pos hi2 hN)
      (geomSum_lt_of_rate_lt hi1 hii hN)
  · intro P r N₁ N₂ hP hr h1 h12
    have hi : 0 < calculateMonthlyRate r := calculateMonthlyRate_pos hr
    rw [calculateEMI_eq_div hi h1, calculateEMI_eq_div hi (by omega)]
    exact div_lt_div_of_pos_left hP (geomSum_pos hi h1)
      (geomSum_lt_of_tenure_lt hi h12)
  · intro P r N hP hr hN
    have hi : 0 < calculateMonthlyRate r := calculateMonthlyRate_pos hr
    rw [calculateEMI_eq_div hi hN]
    exact div_pos hP (geomSum_pos hi hN)

/-- Witness for emi_monotone_positive at concrete inputs. -/
theorem emi_monotone_positive_witness :
    calculateEMI 1000 9 12 < calculateEMI 1000 10 12 ∧
    calculateEMI 1000 9 24 < calculateEMI 1000 9 12 ∧
    0 < calculateEMI 1000 9 12 :=
  ⟨emi_monotone_positive.1 1000 9 10 12 (by norm_num) (by norm_num) (by norm_num)
      (by norm_num),
   emi_monotone_positive.2.1 1000 9 12 24 (by norm_num) (by norm_num) (by norm_num)
      (by norm_num),
   emi_monotone_positive.2.2 1000 9 12 (by norm_num) (by norm_num) (by norm_num)⟩

/-- C6: Outstanding-balance boundary and monotonicity.  At k = 0 the
outstanding balance equals P exactly, at k = N it equals 0 exactly, and
it is strictly decreasing in the number of months paid. -/
theorem outstanding_boundary_mono (P r : ℝ) (N : ℕ)
    (hP : 0 < P) (hr : 0 < r) (hN : 1 ≤ N) :
    calculateOutstandingPrincipal P r N 0 = P ∧
    calculateOutstandingPrincipal P r N N = 0 ∧
    (∀ k₁ k₂ : ℕ, k₁ < k₂ → k₂ ≤ N →
      calculateOutstandingPrincipal P r N k₂ < calculateOutstandingPrincipal P r N k₁) := by
  have hi : 0 < calculateMonthlyRate r := calculateMonthlyRate_pos hr
  set i := calculateMonthlyRate r with hidef
  have hq : 1 < (1 + i) ^ N := one_lt_pow₀ (by linarith) (by omega)
  have hq1 : (0:ℝ) < (1 + i) ^ N - 1 := by linarith
  refine ⟨?_, ?_, ?_⟩
  · show P * ((1 + i) ^ N - (1 + i) ^ 0) / ((1 + i) ^ N - 1) = P
    rw [pow_zero]
    exact mul_div_cancel_right₀ P (ne_of_gt hq1)
  · show P * ((1 + i) ^ N - (1 + i) ^ N) / ((1 + i) ^ N - 1) = 0
    simp
  · intro k₁ k₂ hk hkN
    show P * ((1 + i) ^ N - (1 + i) ^ k₂) / ((1 + i) ^ N - 1) <
      P * ((1 + i) ^ N - (1 + i) ^ k₁) / ((1 + i) ^ N - 1)
    have hpp : (1 + i) ^ k₁ < (1 + i) ^ k₂ := pow_lt_pow_right₀ (by linarith) hk
    have hnum : P * ((1 + i) ^ N - (1 + i) ^ k₂) < P * ((1 + i) ^ N - (1 + i) ^ k₁) := by
      nlinarith
    exact div_lt_div_of_pos_right hnum hq1

/-- Witness for outstanding_boundary_mono at a concrete loan. -/
theorem outstanding_boundary_mono_witness :
    calculateOutstandingPrincipal 1000 12 12 0 = 1000 ∧
    calculateOutstandingPrincipal 1000 12 12 12 = 0 ∧
    calculateOutstandingPrincipal 1000 12 12 2 < calculateOutstandingPrincipal 1000 12 12 1 := by
  obtain ⟨h1, h2, h3⟩ :=
    outstanding_boundary_mono 1000 12 12 (by norm_num) (by norm_num) (by norm_num)
  exact ⟨h1, h2, h3 1 2 (by norm_num) (by norm_num)⟩

/-- C4: Tenure-solver round trip.  Feeding the EMI of a loan back into
the tenure solver with zero prepayment returns the tenure exactly, so
its ceiling is the tenure. -/
theorem tenure_solver_roundtrip (B r : ℝ) (N : ℕ)
    (hB : 0 < B) (hr : 0 < r) (_hr30 : r ≤ 30) (hN : 1 ≤ N) :
    calculateNewTenure B r (calculateEMI B r N) 0 = (N : ℝ) ∧
    ⌈calculateNewTenure B r (calculateEMI B r N) 0⌉ = (N : ℤ) := by
  have hi : 0 < calculateMonthlyRate r := calculateMonthlyRate_pos hr
  have h1i : (1:ℝ) < 1 + calculateMonthlyRate r := by linarith
  have hq : 1 < (1 + calculateMonthlyRate r) ^ N := one_lt_pow₀ (by linarith) (by omega)
  have hq1 : (0:ℝ) < (1 + calculateMonthlyRate r) ^ N - 1 := by linarith
  have hE : calculateEMI B r N =
      B * calculateMonthlyRate r * (1 + calculateMonthlyRate r) ^ N /
        ((1 + calculateMonthlyRate r) ^ N - 1) := rfl
  have hdiff : calculateEMI B r N - (B - 0) * calculateMonthlyRate r =
      B * calculateMonthlyRate r / ((1 + calculateMonthlyRate r) ^ N - 1) := by
    rw [hE, sub_zero]
    field_simp
    ring
  have hdpos : 0 < calculateEMI B r N - (B - 0) * calculateMonthlyRate r := by
    rw [hdiff]
    positivity
  have hratio : calculateEMI B r N / (calculateEMI B r N - (B - 0) * calculateMonthlyRate r) =
      (1 + calculateMonthlyRate r) ^ N := by
    have hne1 : (1 + calculateMonthlyRate r) ^ N - 1 ≠ 0 := ne_of_gt hq1
    have hne2 : B * calculateMonthlyRate r ≠ 0 := by positivity
    rw [hdiff, hE]
    field_simp
  have hmain : calculateNewTenure B r (calculateEMI B r N) 0 = (N : ℝ) := by
    simp only [calculateNewTenure]
    rw [if_neg (by rw [sub_zero]; exact not_le.mpr hB), if_neg (not_le.mpr hdpos)]
    rw [hratio, Real.log_pow]
    exact mul_div_cancel_right₀ _ (ne_of_gt (Real.log_pos h1i))
  exact ⟨hmain, by rw [hmain]; exact Int.ceil_natCast N⟩

/-- Witness for tenure_solver_roundtrip at a concrete loan. -/
theorem tenure_solver_roundtrip_witness :
    calculateNewTenure 1000 12 (calculateEMI 1000 12 12) 0 = 12 ∧
    ⌈calculateNewTenure 1000 12 (calculateEMI 1000 12 12) 0⌉ = 12 :=
  tenure_solver_roundtrip 1000 12 12 (by norm_num) (by norm_num) (by norm_num)
    (by norm_num)

/-- C7: Scenario 1A conservation.  For every input,
totalCostWithoutPrepay - totalCostWithPrepay = interestSaved exactly,
where totalCostWithoutPrepay = EMI * remainingTenure and
totalCostWithPrepay = EMI * newTenureAfterPrepay + prepaymentAmount. -/
theorem scenario1A_conservation (P r : ℝ) (N k : ℕ) (pre : ℝ) :
    (calculatePrepaymentScenario P r N k pre).totalCostWithoutPrepay -
      (calculatePrepaymentScenario P r N k pre).totalCostWithPrepay =
      (calculatePrepaymentScenario P r N k pre).interestSaved ∧
    (calculatePrepaymentScenario P r N k pre).totalCostWithoutPrepay =
      (calculatePrepaymentScenario P r N k pre).emi *
        ((calculatePrepaymentScenario P r N k pre).remainingTenure : ℝ) ∧
    (calculatePrepaymentScenario P r N k pre).totalCostWithPrepay =
      (calculatePrepaymentScenario P r N k pre).emi *
        ((calculatePrepaymentScenario P r N k pre).newTenureAfterPrepay : ℝ) + pre := by
  refine ⟨?_, rfl, rfl⟩
  show (let emi := calculateEMI P r N; emi * (((N : ℤ) - (k : ℤ) : ℤ) : ℝ)) - _ = _
  simp only [calculatePrepaymentScenario, calculateInterestSaved]

/-- C3: the Tenure Solver returns 0 months whenever the post-prepayment
balance is nonpositive, and 0 months whenever the fixed payment does not
exceed one month of interest on that balance; the tenure Scenario 1A
reports from it is max 0 of the ceiling of the solver value, hence never
negative (NaN does not exist in this exact-arithmetic model). -/
theorem tenureSolver_policy :
    (∀ outP r emi pre : ℝ,
      (outP - pre ≤ 0 → calculateNewTenure outP r emi pre = 0) ∧
      (emi - (outP - pre) * calculateMonthlyRate r ≤ 0 →
        calculateNewTenure outP r emi pre = 0)) ∧
    (∀ (P r : ℝ) (N k : ℕ) (pre : ℝ),
      (calculatePrepaymentScenario P r N k pre).newTenureAfterPrepay =
        max 0 ⌈calculateNewTenure (calculateOutstandingPrincipal P r N k) r
          (calculateEMI P r N) pre⌉ ∧
      0 ≤ (calculatePrepaymentScenario P r N k pre).newTenureAfterPrepay) := by
  constructor
  · intro outP r emi pre
    constructor
    · intro h
      simp only [calculateNewTenure]
      rw [if_pos h]
    · intro h
      simp only [calculateNewTenure]
      split_ifs with h1
      · rfl
      · rfl
  · intro P r N k pre
    exact ⟨rfl, le_max_left 0 _⟩

/-- Witness for tenureSolver_policy at a concrete degenerate input. -/
theorem tenureSolver_policy_witness :
    calculateNewTenure 1000 12 500 2000 = 0 :=
  (tenureSolver_policy.1 1000 12 500 2000).1 (by norm_num)

/-- C8: Scenario 1B degenerate case.  When the prepayment equals or
exceeds the outstanding balance, or the EMI-formula denominator is
nonpositive, the result is the sentinel newEmi = 0, interestSaved = 0,
totalCostWithPrepay = prepaymentAmount (no exception is modelled or
needed: the function is total). -/
theorem scenario1B_degenerate (P r : ℝ) (N k : ℕ) (pre : ℝ)
    (h : calculateOutstandingPrincipal P r N k - pre ≤ 0 ∨
      (1 + calculateMonthlyRate r) ^ ((N : ℤ) - (k : ℤ)) - 1 ≤ 0) :
    (calculatePrepaymentScenario1B P r N k pre).newEmi = 0 ∧
    (calculatePrepaymentScenario1B P r N k pre).interestSaved = 0 ∧
    (calculatePrepaymentScenario1B P r N k pre).totalCostWithPrepay = pre := by
  simp only [calculatePrepaymentScenario1B]
  split_ifs with h1 h2
  · exact ⟨rfl, rfl, rfl⟩
  · exact ⟨rfl, rfl, rfl⟩
  · rcases h with h | h
    · exact absurd h h1
    · exact absurd h h2

/-- Witness for scenario1B_degenerate: prepayment double the balance. -/
theorem scenario1B_degenerate_witness :
    (calculatePrepaymentScenario1B 1000 12 2 0 2000).newEmi = 0 ∧
    (calculatePrepaymentScenario1B 1000 12 2 0 2000).interestSaved = 0 ∧
    (calculatePrepaymentScenario1B 1000 12 2 0 2000).totalCostWithPrepay = 2000 :=
  scenario1B_degenerate 1000 12 2 0 2000
    (Or.inl (by norm_num [calculateOutstandingPrincipal, calculateMonthlyRate]))

/-- C9: Scenario 2 insufficient-payment sentinel.  With a positive
monthly extra payment whose effective payment does not exceed one month
of interest on the outstanding balance, the result is newTenure = 0,
tenureReduced = remainingTenure, totalCostWithExtra = 0,
interestSaved = 0, totalExtraPaid = 0 (the function is total, so no
exception can be raised). -/
theorem scenario2_insufficient (P r : ℝ) (N k : ℕ) (extra : ℝ)
    (hpos : 0 < extra)
    (hins : calculateEMI P r N + extra -
      calculateOutstandingPrincipal P r N k * calculateMonthlyRate r ≤ 0) :
    (calculateScenario2 P r N k extra).newTenure = 0 ∧
    (calculateScenario2 P r N k extra).tenureReduced =
      (calculateScenario2 P r N k extra).remainingTenure ∧
    (calculateScenario2 P r N k extra).totalCostWithExtra = 0 ∧
    (calculateScenario2 P r N k extra).interestSaved = 0 ∧
    (calculateScenario2 P r N k extra).totalExtraPaid = 0 := by
  simp only [calculateScenario2]
  split_ifs with h1
  · exact absurd h1 (not_le.mpr hpos)
  · exact ⟨rfl, rfl, rfl, rfl, rfl⟩

/-- Witness for scenario2_insufficient.  The sentinel branch needs an
input outside the validated business range; with a negative principal
the effective payment is negative while the interest term is not. -/
theorem scenario2_insufficient_witness :
    (calculateScenario2 (-1000) 12 2 0 1).newTenure = 0 ∧
    (calculateScenario2 (-1000) 12 2 0 1).tenureReduced =
      (calculateScenario2 (-1000) 12 2 0 1).remainingTenure ∧
    (calculateScenario2 (-1000) 12 2 0 1).totalCostWithExtra = 0 ∧
    (calculateScenario2 (-1000) 12 2 0 1).interestSaved = 0 ∧
    (calculateScenario2 (-1000) 12 2 0 1).totalExtraPaid = 0 :=
  scenario2_insufficient (-1000) 12 2 0 1 (by norm_num)
    (by norm_num [calculateEMI, calculateOutstandingPrincipal, calculateMonthlyRate])

/-- C2: Scenario 3 best-option rule ordering.  With zero prepayment, a
lower new rate and Option B beating Stay the best option is B; with
zero prepayment and no rate advantage it is Stay; with positive
prepayment and no rate advantage it is A or Stay, never B or C. -/
theorem s3_rule_ordering (a : S3Input) :
    (a.prepaymentAmount = 0 → a.newRate < a.currentRate →
      s3_optionB_totalCost a < s3_stayTotalCost a →
      (calculateScenario3 a).bestOption = BestOpt.B) ∧
    (a.prepaymentAmount = 0 → a.currentRate ≤ a.newRate →
      (calculateScenario3 a).bestOption = BestOpt.stay) ∧
    (0 < a.prepaymentAmount → a.currentRate ≤ a.newRate →
      (calculateScenario3 a).bestOption = BestOpt.A ∨
        (calculateScenario3 a).bestOption = BestOpt.stay) := by
  have hbo : (calculateScenario3 a).bestOption = s3_bestOption a := rfl
  refine ⟨?_, ?_, ?_⟩
  · intro h0 hlt hB
    rw [hbo]
    simp only [s3_bestOption]
    rw [if_pos h0, if_pos ⟨hlt, hB⟩]
  · intro h0 hge
    rw [hbo]
    simp only [s3_bestOption]
    rw [if_pos h0, if_neg]
    rintro ⟨hlt, -⟩
    exact absurd hlt (not_lt.mpr hge)
  · intro hpos hge
    rw [hbo]
    simp only [s3_bestOption]
    rw [if_neg (ne_of_gt hpos), if_pos ⟨hge, hpos⟩]
    split_ifs
    · left
      rfl
    · right
      rfl

/-- Witness for s3_rule_ordering: zero prepayment, rate not lower. -/
theorem s3_rule_ordering_witness :
    (calculateScenario3 ⟨1000, 12, 2, 1, 0, 12, 0, 1⟩).bestOption = BestOpt.stay :=
  (s3_rule_ordering ⟨1000, 12, 2, 1, 0, 12, 0, 1⟩).2.1 rfl le_rfl

/-- C10: Option C hasBenefit is decided against Option A, not Stay: it
is true exactly when the prepay-and-refinance branch is taken (nonzero
prepayment, positive capitalized balance, prepayment below the
outstanding balance), the new rate is lower, and the Option C total
cost is below the Option A total cost; with zero prepayment Option C
copies the Option B numbers but its hasBenefit is always false. -/
theorem s3_optionC_benefit_semantics (a : S3Input) :
    ((calculateScenario3 a).optionC.hasBenefit = true ↔
      (a.prepaymentAmount ≠ 0 ∧ s3_optionC_applies a ∧
        a.newRate < a.currentRate ∧
        s3_optionC_totalCost a < s3_optionA_totalCost a)) ∧
    (a.prepaymentAmount = 0 →
      (calculateScenario3 a).optionC.hasBenefit = false ∧
      (calculateScenario3 a).optionC.totalCost = (calculateScenario3 a).optionB.totalCost ∧
      (calculateScenario3 a).optionC.monthlyPayment =
        (calculateScenario3 a).optionB.monthlyPayment ∧
      (calculateScenario3 a).optionC.tenure = (calculateScenario3 a).optionB.tenure ∧
      (calculateScenario3 a).optionC.totalInterest =
        (calculateScenario3 a).optionB.totalInterest) := by
  have hb : (calculateScenario3 a).optionC.hasBenefit = s3_optionC_hasBenefit a := rfl
  constructor
  · rw [hb]
    simp only [s3_optionC_hasBenefit]
    split_ifs with h1 h2 h3
    · simp only [Bool.false_eq_true, false_iff]
      rintro ⟨hne, -, -, -⟩
      exact hne h1
    · simp only [Bool.false_eq_true, false_iff]
      rintro ⟨-, -, hlt, -⟩
      exact absurd hlt (not_lt.mpr h3)
    · rw [decide_eq_true_eq]
      constructor
      · intro h
        exact ⟨h1, h2, not_le.mp h3, h⟩
      · rintro ⟨-, -, -, h⟩
        exact h
    · simp only [Bool.false_eq_true, false_iff]
      rintro ⟨-, happ, -, -⟩
      exact h2 happ
  · intro h0
    have hc : s3_optionC_totalCost a = s3_optionB_totalCost a := by
      simp only [s3_optionC_totalCost]
      rw [if_pos h0]
    refine ⟨?_, hc, ?_, ?_, ?_⟩
    · rw [hb]
      simp only [s3_optionC_hasBenefit]
      rw [if_pos h0]
    · show s3_optionC_monthlyPayment a = s3_optionB_emi a
      simp only [s3_optionC_monthlyPayment]
      rw [if_pos h0]
    · show s3_optionC_tenure a = (a.newTenure : ℤ)
      simp only [s3_optionC_tenure]
      rw [if_pos h0]
    · show s3_optionC_totalCost a - a.originalPrincipal =
        s3_optionB_totalCost a - a.originalPrincipal
      rw [hc]

/-- Witness for s3_optionC_benefit_semantics at a zero-prepayment input. -/
theorem s3_optionC_benefit_semantics_witness :
    (calculateScenario3 ⟨1000, 12, 2, 1, 0, 6, 0, 1⟩).optionC.hasBenefit = false ∧
    (calculateScenario3 ⟨1000, 12, 2, 1, 0, 6, 0, 1⟩).optionC.totalCost =
      (calculateScenario3 ⟨1000, 12, 2, 1, 0, 6, 0, 1⟩).optionB.totalCost :=
  ⟨((s3_optionC_benefit_semantics ⟨1000, 12, 2, 1, 0, 6, 0, 1⟩).2 rfl).1,
   ((s3_optionC_benefit_semantics ⟨1000, 12, 2, 1, 0, 6, 0, 1⟩).2 rfl).2.1⟩

lemma reduceSel_ABC (cost : BestOpt → ℝ) :
    reduceSel cost BestOpt.stay [BestOpt.A, BestOpt.B, BestOpt.C] =
      specLastArgmin (cost BestOpt.stay) (cost BestOpt.A) (cost BestOpt.B)
        (cost BestOpt.C) := by
  simp only [reduceSel, specLastArgmin]
  rcases lt_or_le (cost BestOpt.stay) (cost BestOpt.A) with h1 | h1
  · rw [if_pos h1]
    rcases lt_or_le (cost BestOpt.stay) (cost BestOpt.B) with h2 | h2
    · rw [if_pos h2]
      rcases lt_or_le (cost BestOpt.stay) (cost BestOpt.C) with h3 | h3
      · rw [if_pos h3, if_neg (fun h => absurd h.1 (not_le.mpr h3)),
          if_neg (fun h => absurd h.1 (not_le.mpr h2)), if_neg (not_le.mpr h1)]
      · rw [if_neg (not_lt.mpr h3), if_pos ⟨h3, by linarith, by linarith⟩]
    · rw [if_neg (not_lt.mpr h2)]
      rcases lt_or_le (cost BestOpt.B) (cost BestOpt.C) with h3 | h3
      · rw [if_pos h3, if_neg (fun h => absurd h.2.2 (not_le.mpr h3)),
          if_pos ⟨h2, by linarith⟩]
      · rw [if_neg (not_lt.mpr h3), if_pos ⟨by linarith, by linarith, h3⟩]
  · rw [if_neg (not_lt.mpr h1)]
    rcases lt_or_le (cost BestOpt.A) (cost BestOpt.B) with h2 | h2
    · rw [if_pos h2]
      rcases lt_or_le (cost BestOpt.A) (cost BestOpt.C) with h3 | h3
      · rw [if_pos h3, if_neg (fun h => absurd h.2.1 (not_le.mpr h3)),
          if_neg (fun h => absurd h.2 (not_le.mpr h2)), if_pos h1]
      · rw [if_neg (not_lt.mpr h3), if_pos ⟨by linarith, h3, by linarith⟩]
    · rw [if_neg (not_lt.mpr h2)]
      rcases lt_or_le (cost BestOpt.B) (cost BestOpt.C) with h3 | h3
      · rw [if_pos h3, if_neg (fun h => absurd h.2.2 (not_le.mpr h3)),
          if_pos ⟨by linarith, h2⟩]
      · rw [if_neg (not_lt.mpr h3), if_pos ⟨by linarith, by linarith, h3⟩]

lemma specLastArgmin_min (cost : BestOpt → ℝ) (o : BestOpt) :
    cost (specLastArgmin (cost BestOpt.stay) (cost BestOpt.A) (cost BestOpt.B)
      (cost BestOpt.C)) ≤ cost o := by
  unfold specLastArgmin
  split_ifs with h1 h2 h3
  · obtain ⟨hs, ha, hb⟩ := h1
    cases o
    · exact hs
    · exact ha
    · exact hb
    · exact le_refl _
  · obtain ⟨hs, ha⟩ := h2
    cases o
    · exact hs
    · exact ha
    · exact le_refl _
    · by_contra hcon
      push_neg at hcon
      exact h1 ⟨by linarith, by linarith, by linarith⟩
  · cases o
    · exact h3
    · exact le_refl _
    · by_contra hcon
      push_neg at hcon
      exact h2 ⟨by linarith, by linarith⟩
    · by_contra hcon
      push_neg at hcon
      rcases le_or_lt (cost BestOpt.C) (cost BestOpt.B) with hx | hx
      · exact h1 ⟨by linarith, by linarith, hx⟩
      · exact h2 ⟨by linarith, by linarith⟩
  · push_neg at h3
    cases o
    · exact le_refl _
    · exact le_of_lt h3
    · rcases le_or_lt (cost BestOpt.B) (cost BestOpt.stay) with hx | hx
      · exfalso
        rcases le_or_lt (cost BestOpt.B) (cost BestOpt.A) with hy | hy
        · exact h2 ⟨hx, hy⟩
        · linarith
      · exact le_of_lt hx
    · rcases le_or_lt (cost BestOpt.C) (cost BestOpt.stay) with hx | hx
      · exfalso
        rcases le_or_lt (cost BestOpt.C) (cost BestOpt.B) with hy | hy
        · exact h1 ⟨hx, by linarith, hy⟩
        · exact h2 ⟨by linarith, by linarith⟩
      · exact le_of_lt hx

/-- C1 (amended): in the branch with positive prepayment and a lower
new rate, bestOption is the candidate with the lowest total cost among
stay, A, B, C with ties broken in favor of the LAST-encountered option
in that order (the reduce keeps the incumbent only on strictly lower
cost), and maxSavings is the Stay total cost minus the total cost of
the chosen option. -/
theorem s3_rule5_selection (a : S3Input)
    (hpre : 0 < a.prepaymentAmount) (hrate : a.newRate < a.currentRate) :
    (calculateScenario3 a).bestOption =
      specLastArgmin (s3_stayTotalCost a) (s3_optionA_totalCost a)
        (s3_optionB_totalCost a) (s3_optionC_totalCost a) ∧
    (∀ o : BestOpt, s3_cost a ((calculateScenario3 a).bestOption) ≤ s3_cost a o) ∧
    (calculateScenario3 a).maxSavings =
      s3_stayTotalCost a - s3_cost a ((calculateScenario3 a).bestOption) := by
  have hbo : (calculateScenario3 a).bestOption = s3_bestOption a := rfl
  have hms : (calculateScenario3 a).maxSavings = s3_maxSavings a := rfl
  have hnot2 : ¬(a.currentRate ≤ a.newRate ∧ 0 < a.prepaymentAmount) := by
    rintro ⟨h, -⟩
    exact absurd hrate (not_lt.mpr h)
  have hnot3 : ¬(a.currentRate ≤ a.newRate ∧ a.prepaymentAmount = 0) := by
    rintro ⟨h, -⟩
    exact absurd hrate (not_lt.mpr h)
  have hlist : s3_rule5_list a = [BestOpt.A, BestOpt.B, BestOpt.C] := by
    simp only [s3_rule5_list]
    rw [if_pos hrate, if_pos hpre]
    rfl
  have hbest : s3_bestOption a = s3_rule5_best a := by
    simp only [s3_bestOption]
    rw [if_neg (ne_of_gt hpre), if_neg hnot2, if_neg hnot3]
  have hbest2 : s3_bestOption a =
      specLastArgmin (s3_stayTotalCost a) (s3_optionA_totalCost a)
        (s3_optionB_totalCost a) (s3_optionC_totalCost a) := by
    rw [hbest]
    simp only [s3_rule5_best]
    rw [hlist, reduceSel_ABC]
    rfl
  refine ⟨hbo.trans hbest2, ?_, ?_⟩
  · intro o
    rw [hbo, hbest2]
    exact specLastArgmin_min (s3_cost a) o
  · rw [hms, hbo, hbest]
    simp only [s3_maxSavings]
    rw [if_neg (ne_of_gt hpre), if_neg hnot2, if_neg hnot3]

/-- Witness for s3_rule5_selection at a concrete input. -/
theorem s3_rule5_selection_witness :
    (calculateScenario3 ⟨1000, 12, 2, 1, 1000, 6, 100, 1⟩).bestOption =
      specLastArgmin (s3_stayTotalCost ⟨1000, 12, 2, 1, 1000, 6, 100, 1⟩)
        (s3_optionA_totalCost ⟨1000, 12, 2, 1, 1000, 6, 100, 1⟩)
        (s3_optionB_totalCost ⟨1000, 12, 2, 1, 1000, 6, 100, 1⟩)
        (s3_optionC_totalCost ⟨1000, 12, 2, 1, 1000, 6, 100, 1⟩) ∧
    (calculateScenario3 ⟨1000, 12, 2, 1, 1000, 6, 100, 1⟩).maxSavings =
      s3_stayTotalCost ⟨1000, 12, 2, 1, 1000, 6, 100, 1⟩ -
        s3_cost ⟨1000, 12, 2, 1, 1000, 6, 100, 1⟩
          ((calculateScenario3 ⟨1000, 12, 2, 1, 1000, 6, 100, 1⟩).bestOption) :=
  ⟨(s3_rule5_selection ⟨1000, 12, 2, 1, 1000, 6, 100, 1⟩
      (by norm_num) (by norm_num)).1,
   (s3_rule5_selection ⟨1000, 12, 2, 1, 1000, 6, 100, 1⟩
      (by norm_num) (by norm_num)).2.2⟩

lemma cx_emi : s3_emi ⟨1000, 12, 2, 1, 1000, 6, 100, 1⟩ = 102010 / 201 := by
  norm_num [s3_emi, calculateEMI, calculateMonthlyRate]

lemma cx_out : s3_outstanding ⟨1000, 12, 2, 1, 1000, 6, 100, 1⟩ = 101000 / 201 := by
  norm_num [s3_outstanding, calculateOutstandingPrincipal, calculateMonthlyRate]

lemma cx_stay : s3_stayTotalCost ⟨1000, 12, 2, 1, 1000, 6, 100, 1⟩ = 204020 / 201 := by
  norm_num [s3_stayTotalCost, s3_alreadyPaid, s3_remainingTenure, cx_emi]

lemma cx_optionA : s3_optionA_totalCost ⟨1000, 12, 2, 1, 1000, 6, 100, 1⟩ =
    204020 / 201 := by
  have h1 : ¬ s3_optionA_applies ⟨1000, 12, 2, 1, 1000, 6, 100, 1⟩ := by
    rintro ⟨-, h⟩
    rw [cx_out] at h
    norm_num at h
  simp only [s3_optionA_totalCost]
  rw [if_neg h1]
  exact cx_stay

lemma cx_optionB : s3_optionB_totalCost ⟨1000, 12, 2, 1, 1000, 6, 100, 1⟩ =
    447431 / 402 := by
  norm_num [s3_optionB_totalCost, s3_optionB_emi, s3_alreadyPaid, cx_emi, cx_out,
    calculateMonthlyRate]

lemma cx_optionC : s3_optionC_totalCost ⟨1000, 12, 2, 1, 1000, 6, 100, 1⟩ =
    204020 / 201 := by
  have h0 : (⟨1000, 12, 2, 1, 1000, 6, 100, 1⟩ : S3Input).prepaymentAmount ≠ 0 := by
    norm_num
  have h1 : ¬ s3_optionC_applies ⟨1000, 12, 2, 1, 1000, 6, 100, 1⟩ := by
    rintro ⟨h, -⟩
    simp only [s3_P_refi_C, cx_out] at h
    norm_num at h
  simp only [s3_optionC_totalCost]
  rw [if_neg h0, if_neg h1]
  exact cx_stay

lemma cx_best : (calculateScenario3 ⟨1000, 12, 2, 1, 1000, 6, 100, 1⟩).bestOption =
    BestOpt.C := by
  have hbo : (calculateScenario3 ⟨1000, 12, 2, 1, 1000, 6, 100, 1⟩).bestOption =
      s3_bestOption ⟨1000, 12, 2, 1, 1000, 6, 100, 1⟩ := rfl
  have h0 : (⟨1000, 12, 2, 1, 1000, 6, 100, 1⟩ : S3Input).prepaymentAmount ≠ 0 := by
    norm_num
  have hn2 : ¬((⟨1000, 12, 2, 1, 1000, 6, 100, 1⟩ : S3Input).currentRate ≤
      (⟨1000, 12, 2, 1, 1000, 6, 100, 1⟩ : S3Input).newRate ∧
      (0:ℝ) < (⟨1000, 12, 2, 1, 1000, 6, 100, 1⟩ : S3Input).prepaymentAmount) := by
    rintro ⟨h, -⟩
    norm_num at h
  have hn3 : ¬((⟨1000, 12, 2, 1, 1000, 6, 100, 1⟩ : S3Input).currentRate ≤
      (⟨1000, 12, 2, 1, 1000, 6, 100, 1⟩ : S3Input).newRate ∧
      (⟨1000, 12, 2, 1, 1000, 6, 100, 1⟩ : S3Input).prepaymentAmount = 0) := by
    rintro ⟨h, -⟩
    norm_num at h
  have hA : (⟨1000, 12, 2, 1, 1000, 6, 100, 1⟩ : S3Input).newRate <
      (⟨1000, 12, 2, 1, 1000, 6, 100, 1⟩ : S3Input).currentRate := by
    norm_num
  have hB : (0:ℝ) < (⟨1000, 12, 2, 1, 1000, 6, 100, 1⟩ : S3Input).prepaymentAmount := by
    norm_num
  have hlist : s3_rule5_list ⟨1000, 12, 2, 1, 1000, 6, 100, 1⟩ =
      [BestOpt.A, BestOpt.B, BestOpt.C] := by
    simp only [s3_rule5_list]
    rw [if_pos hA, if_pos hB]
    rfl
  rw [hbo]
  simp only [s3_bestOption]
  rw [if_neg h0, if_neg hn2, if_neg hn3]
  simp only [s3_rule5_best, hlist]
  norm_num [reduceSel, s3_cost, cx_stay, cx_optionA, cx_optionB, cx_optionC]

/-- C1 counterexample: at this input, with positive prepayment and a
lower new rate, the total costs of Stay, Option A and Option C tie at
the minimum while Option B is strictly larger, and the source selects
C, not the first-encountered minimum Stay. -/
theorem s3_tiebreak_counterexample :
    0 < (⟨1000, 12, 2, 1, 1000, 6, 100, 1⟩ : S3Input).prepaymentAmount ∧
    (⟨1000, 12, 2, 1, 1000, 6, 100, 1⟩ : S3Input).newRate <
      (⟨1000, 12, 2, 1, 1000, 6, 100, 1⟩ : S3Input).currentRate ∧
    s3_stayTotalCost ⟨1000, 12, 2, 1, 1000, 6, 100, 1⟩ =
      s3_optionA_totalCost ⟨1000, 12, 2, 1, 1000, 6, 100, 1⟩ ∧
    s3_stayTotalCost ⟨1000, 12, 2, 1, 1000, 6, 100, 1⟩ =
      s3_optionC_totalCost ⟨1000, 12, 2, 1, 1000, 6, 100, 1⟩ ∧
    s3_stayTotalCost ⟨1000, 12, 2, 1, 1000, 6, 100, 1⟩ <
      s3_optionB_totalCost ⟨1000, 12, 2, 1, 1000, 6, 100, 1⟩ ∧
    (calculateScenario3 ⟨1000, 12, 2, 1, 1000, 6, 100, 1⟩).bestOption ≠
      BestOpt.stay ∧
    (calculateScenario3 ⟨1000, 12, 2, 1, 1000, 6, 100, 1⟩).bestOption = BestOpt.C := by
  refine ⟨by norm_num, by norm_num, ?_, ?_, ?_, ?_, cx_best⟩
  · rw [cx_stay, cx_optionA]
  · rw [cx_stay, cx_optionC]
  · rw [cx_stay, cx_optionB]
    norm_num
  · rw [cx_best]
    simp

end CredX
